import Mathlib

/-!
Verification of the Telegram–Gemini relay bot (main.py).

The Python source is shallowly embedded: pure dataflow becomes Lean
functions; the network is an explicit `HttpOutcome` input; Python
exceptions become `Except` / `Option`; bytes are `Nat` values below 256.
-/

/-- A JSON value, as produced by `resp.json()`. Objects are association
lists with distinct keys. -/
inductive Json where
  | null
  | bool (b : Bool)
  | num (n : Int)
  | str (s : String)
  | arr (items : List Json)
  | obj (fields : List (String × Json))

/-- Python `j[key]` for a string key: succeeds only on a dict
(KeyError / TypeError otherwise, both of which `except Exception` catches). -/
def jsonField (j : Json) (key : String) : Option Json :=
  match j with
  | .obj fields => (fields.find? (fun kv => kv.1 == key)).map (fun kv => kv.2)
  | _ => none

/-- Python `j[i]` for an int index: succeeds on a list (IndexError when out
of range) and on a string (yielding a one-character string); TypeError on
anything else. -/
def jsonIndex (j : Json) (i : Nat) : Option Json :=
  match j with
  | .arr items => items.get? i
  | .str s => (s.data.get? i).map (fun c => Json.str (String.mk [c]))
  | _ => none

/-- The guarded extraction
`data["candidates"][0]["content"]["parts"][0]["text"]` from call_gemini:
`none` exactly when the Python chain raises (the `except` branch). -/
def extractReply (data : Json) : Option Json := do
  let cs ← jsonField data "candidates"
  let c0 ← jsonIndex cs 0
  let ct ← jsonField c0 "content"
  let ps ← jsonField ct "parts"
  let p0 ← jsonIndex ps 0
  jsonField p0 "text"

/-- One element of the `parts` list sent to Gemini. -/
inductive RequestPart where
  | text (s : String)
  | image (mimeType : String) (data : String)
  | audio (mimeType : String) (data : String)
  | video (mimeType : String) (data : String)

/-- MIME type of a media part, `none` for a text part. -/
def partMime : RequestPart → Option String
  | .text _ => none
  | .image m _ => some m
  | .audio m _ => some m
  | .video m _ => some m

/-- What the network did for one `requests.post` call: a transport error,
or a response with its status code and the result of `resp.json()`
(`none` when the body is not parseable as JSON). -/
inductive HttpOutcome where
  | transportError
  | response (status : Nat) (parsed : Option Json)

/-- The exceptions call_gemini can raise. -/
inductive GeminiError where
  | requestFailed
  | httpStatus (status : Nat)
  | jsonDecode

/-- `resp.raise_for_status()` raises exactly for 4xx and 5xx statuses. -/
def raiseForStatus (status : Nat) : Bool :=
  decide (400 ≤ status ∧ status < 600)

/-- call_gemini (main.py lines 55-76): post the parts, raise on transport
error, on a 4xx/5xx status, or on an unparseable body; then return the
extracted text, or the fixed fallback string when extraction raises.
A successful extraction is returned as-is, whatever JSON value it is. -/
def call_gemini (parts : List RequestPart) (o : HttpOutcome) : Except GeminiError Json :=
  let _ := parts
  match o with
  | .transportError => .error .requestFailed
  | .response status parsed =>
    if raiseForStatus status then .error (.httpStatus status)
    else
      match parsed with
      | none => .error .jsonDecode
      | some data =>
        match extractReply data with
        | some v => .ok v
        | none => .ok (.str "Gemini returned an unexpected response.")

/-! ## Base64 (Python `base64.b64encode(...).decode('utf-8')`) -/

/-- The standard base64 alphabet, index = sextet value. -/
def sextetChars : List Char :=
  ['A', 'B', 'C', 'D', 'E', 'F', 'G', 'H', 'I', 'J', 'K', 'L', 'M',
   'N', 'O', 'P', 'Q', 'R', 'S', 'T', 'U', 'V', 'W', 'X', 'Y', 'Z',
   'a', 'b', 'c', 'd', 'e', 'f', 'g', 'h', 'i', 'j', 'k', 'l', 'm',
   'n', 'o', 'p', 'q', 'r', 's', 't', 'u', 'v', 'w', 'x', 'y', 'z',
   '0', '1', '2', '3', '4', '5', '6', '7', '8', '9', '+', '/']

/-- Alphabet character of a sextet value. -/
def sextetToChar (n : Nat) : Char := sextetChars.getD n 'A'

/-- Sextet value of an alphabet character, `none` off the alphabet. -/
def charToSextet (c : Char) : Option Nat :=
  sextetChars.findIdx? (fun x => x == c)

/-- RFC 4648 base64 encoding of a byte list, with `=` padding, three bytes
to four characters. -/
def b64encodeChunks : List Nat → List Char
  | [] => []
  | [b1] =>
    [sextetToChar (b1 / 4), sextetToChar (b1 % 4 * 16), '=', '=']
  | [b1, b2] =>
    [sextetToChar (b1 / 4), sextetToChar (b1 % 4 * 16 + b2 / 16),
     sextetToChar (b2 % 16 * 4), '=']
  | b1 :: b2 :: b3 :: rest =>
    sextetToChar (b1 / 4) :: sextetToChar (b1 % 4 * 16 + b2 / 16) ::
    sextetToChar (b2 % 16 * 4 + b3 / 64) :: sextetToChar (b3 % 64) ::
    b64encodeChunks rest

/-- Base64 decoding, `none` on any malformed input. -/
def b64decodeChunks : List Char → Option (List Nat)
  | [] => some []
  | c1 :: c2 :: c3 :: c4 :: rest =>
    match charToSextet c1, charToSextet c2 with
    | some s1, some s2 =>
      if c3 = '=' then
        if c4 = '=' then
          if rest = [] then some [s1 * 4 + s2 / 16] else none
        else none
      else
        match charToSextet c3 with
        | some s3 =>
          if c4 = '=' then
            if rest = [] then
              some [s1 * 4 + s2 / 16, s2 % 16 * 16 + s3 / 4]
            else none
          else
            match charToSextet c4, b64decodeChunks rest with
            | some s4, some tail =>
              some ((s1 * 4 + s2 / 16) :: (s2 % 16 * 16 + s3 / 4) ::
                    (s3 % 4 * 64 + s4) :: tail)
            | _, _ => none
        | none => none
    | _, _ => none
  | _ => none

/-- `base64.b64encode(bytes).decode('utf-8')`. -/
def b64encode (bs : List Nat) : String := String.mk (b64encodeChunks bs)

/-- Base64 decoding of a string. -/
def b64decode (s : String) : Option (List Nat) := b64decodeChunks s.data

/-! ## Handlers (main.py lines 88-165)

Each handler is split into the parts list it builds and the reply value it
passes to `reply_text`; the downloaded attachment bytes and the network
outcome are explicit inputs. -/

/-- text_handler, line 90: the parts list is the user's text, alone. -/
def text_handler_parts (user_text : String) : List RequestPart :=
  [RequestPart.text user_text]

/-- text_handler, lines 91-96: the reply sent back to the chat. -/
def text_handler (user_text : String) (o : HttpOutcome) : Json :=
  match call_gemini (text_handler_parts user_text) o with
  | .ok reply => reply
  | .error _ => .str "Error contacting Gemini."

/-- One entry of `update.message.photo`: Telegram reports sizes but no
MIME type for photo variants. -/
structure PhotoSize where
  file_id : String
  width : Nat
  height : Nat
  file_size : Nat

/-- photo_handler, line 100: `update.message.photo[-1]`, the last variant
of the list (none when the list is empty and indexing would raise). -/
def photo_selected (photos : List PhotoSize) : Option PhotoSize :=
  photos.getLast?

/-- photo_handler, lines 101-107: the parts built from the downloaded
bytes of the selected variant; the MIME type is the literal "image/jpeg". -/
def photo_handler_parts (content : List Nat) : List RequestPart :=
  [RequestPart.text "Please analyze this image:",
   RequestPart.image "image/jpeg" (b64encode content)]

/-- photo_handler, lines 108-113: the reply sent back to the chat. -/
def photo_handler (content : List Nat) (o : HttpOutcome) : Json :=
  match call_gemini (photo_handler_parts content) o with
  | .ok reply => reply
  | .error _ => .str "Error processing image."

/-- `audio.mime_type or "audio/ogg"`: Python `or` also replaces the empty
string, not only `None`. -/
def audioEffectiveMime (mime_type : Option String) : String :=
  match mime_type with
  | some s => if s = "" then "audio/ogg" else s
  | none => "audio/ogg"

/-- audio_handler, lines 136-142: the parts built from the attachment's
reported MIME type and downloaded bytes. -/
def audio_handler_parts (mime_type : Option String) (content : List Nat) :
    List RequestPart :=
  [RequestPart.text "Please transcribe or analyze this audio:",
   RequestPart.audio (audioEffectiveMime mime_type) (b64encode content)]

/-- audio_handler, lines 143-148: the reply sent back to the chat. -/
def audio_handler (mime_type : Option String) (content : List Nat)
    (o : HttpOutcome) : Json :=
  match call_gemini (audio_handler_parts mime_type content) o with
  | .ok reply => reply
  | .error _ => .str "Error processing audio."

/-- `update.message.video`: Telegram reports an optional MIME type for
videos. -/
structure Video where
  file_id : String
  mime_type : Option String

/-- video_handler, lines 153-159: the parts built from the downloaded
bytes; the MIME type is the literal "video/mp4", the attachment's reported
type is never read. -/
def video_handler_parts (video : Video) (content : List Nat) :
    List RequestPart :=
  let _ := video
  [RequestPart.text "Please analyze this video:",
   RequestPart.video "video/mp4" (b64encode content)]

/-- video_handler, lines 160-165: the reply sent back to the chat. -/
def video_handler (video : Video) (content : List Nat) (o : HttpOutcome) :
    Json :=
  match call_gemini (video_handler_parts video content) o with
  | .ok reply => reply
  | .error _ => .str "Error processing video."

/-- `page.extract_text() or ""`: a page whose extraction returned `None`
contributes the empty string. -/
def pdfPageText (p : Option String) : String :=
  match p with
  | some s => s
  | none => ""

/-- document_handler, line 121: `"\n".join(page.extract_text() or "" for
page in reader.pages)`. -/
def pdfExtractedText (pages : List (Option String)) : String :=
  String.intercalate "\n" (pages.map pdfPageText)

/-- document_handler, lines 117-123: the parts built for a PDF, `none`
when the MIME type is not application/pdf and no Gemini call is made. -/
def document_handler_parts (mime_type : String) (pages : List (Option String)) :
    Option (List RequestPart) :=
  if mime_type = "application/pdf" then
    some [RequestPart.text
      ("Extracted text from PDF:\n" ++ pdfExtractedText pages ++
       "\n\nPlease summarize.")]
  else none

/-- document_handler, lines 115-131: the reply sent back to the chat. -/
def document_handler (mime_type : String) (pages : List (Option String))
    (o : HttpOutcome) : Json :=
  match document_handler_parts mime_type pages with
  | some parts =>
    match call_gemini parts o with
    | .ok reply => reply
    | .error _ => .str "Error processing PDF."
  | none => .str ("Unsupported document type: " ++ mime_type)

/-- An HTTP-level failure of the Gemini call: a transport error, or a
status `raise_for_status` raises on. -/
def httpLevelFailure (o : HttpOutcome) : Prop :=
  o = .transportError ∨
  ∃ status parsed, o = .response status parsed ∧ raiseForStatus status = true

/-! ## Helper lemmas -/

theorem charToSextet_inv : ∀ n, n < 64 → charToSextet (sextetToChar n) = some n := by
  decide

theorem sextetToChar_ne_pad : ∀ n, n < 64 → sextetToChar n ≠ '=' := by
  decide

theorem b64decode_encode :
    ∀ (bs : List Nat), (∀ b ∈ bs, b < 256) →
      b64decodeChunks (b64encodeChunks bs) = some bs
  | [], _ => rfl
  | [b1], h => by
    have hb1 : b1 < 256 := h b1 (by simp)
    have h1 : b1 / 4 < 64 := by omega
    have h2 : b1 % 4 * 16 < 64 := by omega
    simp only [b64encodeChunks, b64decodeChunks,
      charToSextet_inv _ h1, charToSextet_inv _ h2,
      if_pos rfl, if_true, Option.some.injEq, List.cons.injEq, and_true]
    omega
  | [b1, b2], h => by
    have hb1 : b1 < 256 := h b1 (by simp)
    have hb2 : b2 < 256 := h b2 (by simp)
    have h1 : b1 / 4 < 64 := by omega
    have h2 : b1 % 4 * 16 + b2 / 16 < 64 := by omega
    have h3 : b2 % 16 * 4 < 64 := by omega
    simp only [b64encodeChunks, b64decodeChunks,
      charToSextet_inv _ h1, charToSextet_inv _ h2, charToSextet_inv _ h3,
      if_neg (sextetToChar_ne_pad _ h3), if_pos rfl, if_true,
      Option.some.injEq, List.cons.injEq, and_true]
    omega
  | b1 :: b2 :: b3 :: rest, h => by
    have hb1 : b1 < 256 := h b1 (by simp)
    have hb2 : b2 < 256 := h b2 (by simp)
    have hb3 : b3 < 256 := h b3 (by simp)
    have ih := b64decode_encode rest (fun b hb => h b (by simp [hb]))
    have h1 : b1 / 4 < 64 := by omega
    have h2 : b1 % 4 * 16 + b2 / 16 < 64 := by omega
    have h3 : b2 % 16 * 4 + b3 / 64 < 64 := by omega
    have h4 : b3 % 64 < 64 := by omega
    simp only [b64encodeChunks, b64decodeChunks,
      charToSextet_inv _ h1, charToSextet_inv _ h2, charToSextet_inv _ h3,
      charToSextet_inv _ h4,
      if_neg (sextetToChar_ne_pad _ h3), if_neg (sextetToChar_ne_pad _ h4),
      ih, Option.some.injEq, List.cons.injEq, and_true]
    refine ⟨by omega, by omega, by omega⟩

theorem b64decode_b64encode (bs : List Nat) (h : ∀ b ∈ bs, b < 256) :
    b64decode (b64encode bs) = some bs :=
  b64decode_encode bs h

theorem call_gemini_error_of_httpLevelFailure (parts : List RequestPart)
    (o : HttpOutcome) (h : httpLevelFailure o) :
    ∃ e, call_gemini parts o = .error e := by
  rcases h with h | ⟨status, parsed, rfl, hs⟩
  · exact ⟨.requestFailed, by simp [h, call_gemini]⟩
  · exact ⟨.httpStatus status, by simp [call_gemini, hs]⟩

/-! ## Claims -/

/-- Claim C1, counterexample: a video whose platform-reported MIME type is
video/webm still gets a part carrying video/mp4 — the handler never reads
the reported type. -/
theorem c1_video_mime_ignored :
    (video_handler_parts ⟨"vid1", some "video/webm"⟩ [1, 2, 3]).map partMime
      = [none, some "video/mp4"] ∧
    some "video/mp4" ≠ some "video/webm" :=
  ⟨rfl, by simp⟩

/-- Claim C1 (amended): only the audio part carries the platform-reported
MIME type, falling back to audio/ogg when it is absent or empty; photo and
video parts always carry the fixed defaults image/jpeg and video/mp4,
whatever the platform reported. -/
theorem c1_mime_types (ms : String) (hms : ms ≠ "") (content : List Nat)
    (v : Video) :
    (audio_handler_parts (some ms) content).map partMime = [none, some ms] ∧
    (audio_handler_parts none content).map partMime = [none, some "audio/ogg"] ∧
    (audio_handler_parts (some "") content).map partMime
      = [none, some "audio/ogg"] ∧
    (photo_handler_parts content).map partMime = [none, some "image/jpeg"] ∧
    (video_handler_parts v content).map partMime = [none, some "video/mp4"] := by
  refine ⟨?_, rfl, rfl, rfl, rfl⟩
  simp [audio_handler_parts, audioEffectiveMime, partMime, hms]

/-- Witness for c1_mime_types at a concrete reported type. -/
theorem c1_mime_types_witness :
    "audio/mpeg" ≠ "" ∧
    (audio_handler_parts (some "audio/mpeg") [7]).map partMime
      = [none, some "audio/mpeg"] :=
  ⟨by decide, (c1_mime_types "audio/mpeg" (by decide) [7] ⟨"v", none⟩).1⟩

/-- A 200-status body in which every expected field is present but the
text field holds the number 42 instead of a string. -/
def c2Body : Json :=
  .obj [("candidates", .arr [.obj [("content",
    .obj [("parts", .arr [.obj [("text", .num 42)]])])]])]

/-- Claim C2, counterexample: on a success response whose text field is
malformed (a number, not a string), call_gemini returns that raw value,
not the fixed fallback string. -/
theorem c2_malformed_text_returned_raw :
    call_gemini [RequestPart.text "hi"] (.response 200 (some c2Body))
      = .ok (.num 42) ∧
    Json.num 42 ≠ Json.str "Gemini returned an unexpected response." :=
  ⟨rfl, fun h => Json.noConfusion h⟩

/-- Claim C2 (amended): on a success response whose parsed body makes the
candidates/content/parts/text extraction fail, call_gemini returns the
fixed fallback string and no exception propagates; when the extraction
succeeds its value is returned as-is, even when it is not a string. -/
theorem c2_fallback_on_failed_extraction (parts : List RequestPart)
    (status : Nat) (hs : status < 400) (j : Json) :
    (extractReply j = none →
      call_gemini parts (.response status (some j))
        = .ok (.str "Gemini returned an unexpected response.")) ∧
    (∀ v, extractReply j = some v →
      call_gemini parts (.response status (some j)) = .ok v) ∧
    ∃ r, call_gemini parts (.response status (some j)) = .ok r := by
  have hr : raiseForStatus status = false := by
    simp [raiseForStatus]; omega
  refine ⟨?_, ?_, ?_⟩
  · intro he
    simp [call_gemini, hr, he]
  · intro v hv
    simp [call_gemini, hr, hv]
  · cases hex : extractReply j with
    | none =>
      exact ⟨.str "Gemini returned an unexpected response.",
        by simp [call_gemini, hr, hex]⟩
    | some v => exact ⟨v, by simp [call_gemini, hr, hex]⟩

/-- Witness for c2_fallback_on_failed_extraction at an empty-object body. -/
theorem c2_fallback_witness :
    200 < 400 ∧ extractReply (Json.obj []) = none ∧
    call_gemini [] (.response 200 (some (Json.obj [])))
      = .ok (.str "Gemini returned an unexpected response.") :=
  ⟨by decide, rfl,
    (c2_fallback_on_failed_extraction [] 200 (by decide) (Json.obj [])).1 rfl⟩

/-- Claim C3: a PDF whose pages extract to Hello, the empty string and
World yields the joined block and exactly one text part, the block wrapped
in the summarization instruction. -/
theorem c3_pdf_hello_world :
    pdfExtractedText [some "Hello", some "", some "World"] = "Hello\n\nWorld" ∧
    document_handler_parts "application/pdf" [some "Hello", some "", some "World"]
      = some [RequestPart.text
          "Extracted text from PDF:\nHello\n\nWorld\n\nPlease summarize."] :=
  ⟨rfl, rfl⟩

/-- Claim C5: any non-PDF document builds no parts (so no Gemini call is
made) and the reply names the unsupported type. -/
theorem c5_unsupported_document (mime_type : String) (pages : List (Option String))
    (o : HttpOutcome) (h : mime_type ≠ "application/pdf") :
    document_handler_parts mime_type pages = none ∧
    document_handler mime_type pages o
      = .str ("Unsupported document type: " ++ mime_type) := by
  have hp : document_handler_parts mime_type pages = none := by
    simp [document_handler_parts, h]
  exact ⟨hp, by simp [document_handler, hp]⟩

/-- Witness for c5_unsupported_document at application/zip. -/
theorem c5_unsupported_witness :
    "application/zip" ≠ "application/pdf" ∧
    document_handler "application/zip" [] .transportError
      = .str "Unsupported document type: application/zip" := by
  refine ⟨by decide, ?_⟩
  have := (c5_unsupported_document "application/zip" [] .transportError
    (by decide)).2
  simpa using this

/-- Claim C7: a text message's parts list is exactly one element, a text
part equal to the message body with nothing added. -/
theorem c7_text_parts_verbatim (user_text : String) :
    text_handler_parts user_text = [RequestPart.text user_text] ∧
    (text_handler_parts user_text).length = 1 :=
  ⟨rfl, rfl⟩

/-- Claim C8: every parts list a handler passes to call_gemini is
nonempty, across text, photo, PDF document, audio and video. -/
theorem c8_parts_nonempty (t : String) (content : List Nat)
    (m : Option String) (v : Video) (mime_type : String)
    (pages : List (Option String)) (ps : List RequestPart)
    (hdoc : document_handler_parts mime_type pages = some ps) :
    1 ≤ (text_handler_parts t).length ∧
    1 ≤ (photo_handler_parts content).length ∧
    1 ≤ (audio_handler_parts m content).length ∧
    1 ≤ (video_handler_parts v content).length ∧
    1 ≤ ps.length := by
  refine ⟨by simp [text_handler_parts], by simp [photo_handler_parts],
    by simp [audio_handler_parts], by simp [video_handler_parts], ?_⟩
  unfold document_handler_parts at hdoc
  split at hdoc
  · cases hdoc
    simp
  · cases hdoc

/-- Witness for c8_parts_nonempty at concrete inputs. -/
theorem c8_parts_nonempty_witness :
    document_handler_parts "application/pdf" [some "x"]
      = some [RequestPart.text "Extracted text from PDF:\nx\n\nPlease summarize."] ∧
    1 ≤ (text_handler_parts "hi").length ∧
    1 ≤ [RequestPart.text "Extracted text from PDF:\nx\n\nPlease summarize."].length :=
  ⟨rfl, (c8_parts_nonempty "hi" [] none ⟨"v", none⟩ "application/pdf" [some "x"]
      _ rfl).1,
    (c8_parts_nonempty "hi" [] none ⟨"v", none⟩ "application/pdf" [some "x"]
      _ rfl).2.2.2.2⟩

/-- Claim C10: a success-status response whose body is not parseable JSON
makes call_gemini raise (the json decode error), not return the fallback
string: only field extraction is guarded. -/
theorem c10_unparseable_body_raises (parts : List RequestPart) (status : Nat)
    (hs : status < 400) :
    call_gemini parts (.response status none) = .error .jsonDecode := by
  have hr : raiseForStatus status = false := by
    simp [raiseForStatus]; omega
  simp [call_gemini, hr]

/-- Witness for c10_unparseable_body_raises at status 200. -/
theorem c10_unparseable_witness :
    200 < 400 ∧
    call_gemini [] (.response 200 none) = .error .jsonDecode :=
  ⟨by decide, c10_unparseable_body_raises [] 200 (by decide)⟩

/-- Claim C4: on an HTTP-level failure of the Gemini call, every handler
catches the raised error and replies with its fixed modality string. -/
theorem c4_handlers_error_strings (o : HttpOutcome) (h : httpLevelFailure o)
    (t : String) (content : List Nat) (m : Option String) (v : Video)
    (pages : List (Option String)) :
    text_handler t o = .str "Error contacting Gemini." ∧
    photo_handler content o = .str "Error processing image." ∧
    audio_handler m content o = .str "Error processing audio." ∧
    video_handler v content o = .str "Error processing video." ∧
    document_handler "application/pdf" pages o = .str "Error processing PDF." := by
  rcases h with rfl | ⟨status, parsed, rfl, hs⟩
  · exact ⟨rfl, rfl, rfl, rfl, rfl⟩
  · simp [text_handler, photo_handler, audio_handler, video_handler,
      document_handler, document_handler_parts, call_gemini, hs]

/-- Witness for c4_handlers_error_strings at a transport error. -/
theorem c4_handlers_witness :
    httpLevelFailure .transportError ∧
    text_handler "hi" .transportError = .str "Error contacting Gemini." ∧
    photo_handler [1] .transportError = .str "Error processing image." :=
  ⟨Or.inl rfl,
    (c4_handlers_error_strings .transportError (Or.inl rfl) "hi" [1] none
      ⟨"v", none⟩ []).1,
    (c4_handlers_error_strings .transportError (Or.inl rfl) "hi" [1] none
      ⟨"v", none⟩ []).2.1⟩

theorem photo_getLast_max :
    ∀ (l : List PhotoSize) (sel : PhotoSize),
      l.getLast? = some sel →
      l.Pairwise (fun a b => a.file_size ≤ b.file_size) →
      sel ∈ l ∧ ∀ p ∈ l, p.file_size ≤ sel.file_size
  | [], sel, hsel, _ => by simp at hsel
  | [a], sel, hsel, _ => by
    simp only [List.getLast?_singleton, Option.some.injEq] at hsel
    subst hsel
    simp
  | a :: b :: t, sel, hsel, hp => by
    rw [List.getLast?_cons_cons] at hsel
    have ha : ∀ x ∈ b :: t, a.file_size ≤ x.file_size :=
      (List.pairwise_cons.mp hp).1
    have ih := photo_getLast_max (b :: t) sel hsel (List.pairwise_cons.mp hp).2
    refine ⟨List.mem_cons_of_mem a ih.1, ?_⟩
    intro p hpmem
    rcases List.mem_cons.mp hpmem with rfl | hpmem
    · exact ha sel ih.1
    · exact ih.2 p hpmem

/-- Claim C6: when the platform's photo size list is sorted ascending by
size (as Telegram delivers it), the selected variant — the last entry — is
one of those offered and has the largest reported size. -/
theorem c6_photo_selects_largest (photos : List PhotoSize) (sel : PhotoSize)
    (hsel : photo_selected photos = some sel)
    (hsorted : photos.Pairwise (fun a b => a.file_size ≤ b.file_size)) :
    sel ∈ photos ∧ ∀ p ∈ photos, p.file_size ≤ sel.file_size :=
  photo_getLast_max photos sel hsel hsorted

/-- Witness for c6_photo_selects_largest at a two-variant list. -/
theorem c6_photo_witness :
    photo_selected [⟨"p1", 90, 90, 100⟩, ⟨"p2", 1280, 720, 5000⟩]
      = some ⟨"p2", 1280, 720, 5000⟩ ∧
    ∀ p ∈ [(⟨"p1", 90, 90, 100⟩ : PhotoSize), ⟨"p2", 1280, 720, 5000⟩],
      p.file_size ≤ (PhotoSize.mk "p2" 1280 720 5000).file_size := by
  have hsel : photo_selected [⟨"p1", 90, 90, 100⟩, ⟨"p2", 1280, 720, 5000⟩]
      = some ⟨"p2", 1280, 720, 5000⟩ := by
    simp [photo_selected]
  have hp : ([(⟨"p1", 90, 90, 100⟩ : PhotoSize),
      ⟨"p2", 1280, 720, 5000⟩]).Pairwise
        (fun a b => a.file_size ≤ b.file_size) := by
    refine List.Pairwise.cons ?_ (List.Pairwise.cons ?_ List.Pairwise.nil)
    · intro x hx
      rw [List.mem_singleton] at hx
      subst hx
      decide
    · intro x hx
      simp at hx
  exact ⟨hsel, (c6_photo_selects_largest _ _ hsel hp).2⟩

/-- Claim C9: base64-decoding the data field of the media part built by
the photo, audio and video handlers recovers exactly the downloaded
bytes: the encode step is a lossless round trip. -/
theorem c9_media_base64_roundtrip (content : List Nat)
    (h : ∀ b ∈ content, b < 256) (m : Option String) (v : Video) :
    b64decode (b64encode content) = some content ∧
    (∃ d, photo_handler_parts content
        = [RequestPart.text "Please analyze this image:",
           RequestPart.image "image/jpeg" d] ∧ b64decode d = some content) ∧
    (∃ d, audio_handler_parts m content
        = [RequestPart.text "Please transcribe or analyze this audio:",
           RequestPart.audio (audioEffectiveMime m) d] ∧
        b64decode d = some content) ∧
    (∃ d, video_handler_parts v content
        = [RequestPart.text "Please analyze this video:",
           RequestPart.video "video/mp4" d] ∧ b64decode d = some content) := by
  have hrt := b64decode_b64encode content h
  exact ⟨hrt, ⟨_, rfl, hrt⟩, ⟨_, rfl, hrt⟩, ⟨_, rfl, hrt⟩⟩

/-- Witness for c9_media_base64_roundtrip on the bytes of "Man". -/
theorem c9_media_witness :
    (∀ b ∈ [77, 97, 110], b < 256) ∧
    b64decode (b64encode [77, 97, 110]) = some [77, 97, 110] :=
  ⟨by decide,
    (c9_media_base64_roundtrip [77, 97, 110] (by decide) none ⟨"v", none⟩).1⟩
